import Mathlib

/-!
Verification development for the `sawyer_bopt` repository
(`src/scripts/src/ros_bayesian_optimization.py`).

The single source file defines `RosBayesianOptimization`, a construction-time
wiring class: its `__init__` (lines 75-140) builds the design space, the cost
model, the surrogate model, the acquisition optimizer, the acquisition
function and the evaluator, in that order, and finally calls the base loop
class `RosBO.__init__`.  The class has three further methods,
`_model_chooser`, `_acquisition_chooser` and `_evaluator_chooser`
(lines 142-149), each of which only returns a freshly created component and
assigns nothing.

The components called from `__init__` (GPyOpt's `Design_space`, `CostModel`,
the `ArgumentsManager` creators, `AcquisitionOptimizer`, and the repository's
base class `RosBO` from `ros_bo.py`) are not under `src/`; their behaviour is
modelled from the specification, and every such definition carries a doc
comment beginning `Modelled from the spec:`.  The wiring itself — the order
of the calls, which arguments flow where, which attributes are assigned —
is translated directly from the source file.
-/

namespace SawyerBopt

/-- A candidate point of the design space (one coordinate per variable). -/
abbrev Point := List Rat

/-- A cost-with-gradients function: maps a point to its evaluation cost and
the gradient of the cost (source docstring, lines 29-31). -/
abbrev CostGrad := Point → Rat × Point

/-- One variable descriptor of the `domain` argument (source line 27; spec
section 3: name, kind, domain/range). -/
structure VarSpec where
  name : String
  vtype : String
  dom : List Rat
deriving DecidableEq, Repr

/-- The error taxonomy of spec section 7 restricted to the errors that the
construction surface can raise. -/
inductive BOError where
  | configurationError
  | incompatibleModelError
deriving DecidableEq, Repr

/-- Construction-time events.  An event is recorded whenever the true
objective is evaluated at a point or the acquisition function scores a
point; the theorems below show that construction records none. -/
inductive Event where
  | evalObjective (x : Point)
  | evalAcquisition (x : Point)
deriving DecidableEq, Repr

/-- The design space built at source line 94. -/
structure DesignSpace where
  vars : List VarSpec
  constraints : List String
deriving DecidableEq, Repr

/-- The surrogate model instance returned by the model chooser (source
line 114).  `id` tags the allocated instance, so that two fields holding
the same `id` model two Python attributes referencing one object. -/
structure GPModel where
  id : Nat
  model_type : String
  exact_feval : Bool
deriving DecidableEq, Repr

/-- The acquisition optimizer built at source line 119 from the space, the
policy tag and the shared surrogate model. -/
structure AcquisitionOptimizer where
  space : DesignSpace
  optimizer_type : String
  model : GPModel
deriving DecidableEq, Repr

/-- The cost model built at source line 102; it wraps the user cost
function (spec section 4.2). -/
structure CostModel where
  cost_withGradients : CostGrad

/-- The acquisition function built at source line 123: it holds the type
tag, the shared model, the space, the acquisition optimizer and the cost
function received from the cost model (source line 146). -/
structure Acquisition where
  acquisition_type : String
  model : GPModel
  space : DesignSpace
  optimizer : AcquisitionOptimizer
  cost_withGradients : CostGrad

/-- The evaluator built at source line 127 (source line 149 forwards the
acquisition, the batch size and the model). -/
structure Evaluator where
  evaluator_type : String
  acquisition : Acquisition
  batch_size : Int

/-- Modelled from the spec: the state of the base optimization loop class
`RosBO` (file `ros_bo.py`, of this repository but not under `src/`), as far
as its constructor populates it: the five components, the Observation Set
and the configuration forwarded at source lines 130-140 (spec sections 3
and 4.7). -/
structure RosBOState where
  model : GPModel
  space : DesignSpace
  acquisition : Acquisition
  evaluator : Evaluator
  observations : List (Point × Rat)
  cost : CostModel
  normalize_Y : Bool
  model_update_interval : Int
  de_duplication : Bool
  initial_design_numdata : Int

/-- The full attribute state of a constructed `RosBayesianOptimization`
object: one field per `self.<attr>` assignment of `__init__`
(source lines 80-127), plus the base-class state of lines 130-140.
`allocated_models` records the ids of the surrogate instances allocated
during construction (the single `_model_chooser` call of line 114). -/
structure BOState where
  modular_optimization : Bool
  initial_iter : Bool
  verbosity : Bool
  verbosity_model : Bool
  model_update_interval : Int
  de_duplication : Bool
  kwargs : List (String × String)
  problem_config : List (String × String)
  constraints : Option (List String)
  domain : Option (List VarSpec)
  space : DesignSpace
  maximize : Bool
  batch_size : Int
  num_cores : Int
  cost : CostModel
  X : Option (List Point)
  Y : Option (List Rat)
  initial_design_type : String
  initial_design_numdata : Int
  model_type : String
  exact_feval : Bool
  normalize_Y : Bool
  model : GPModel
  allocated_models : List Nat
  acquisition_optimizer_type : String
  acquisition_optimizer : AcquisitionOptimizer
  acquisition_type : String
  acquisition : Acquisition
  evaluator_type : String
  evaluator : Evaluator
  base : RosBOState

/-- The keyword arguments of `__init__` with their source defaults
(source lines 75-78).  The signature has no objective-function parameter:
`f` is documented in the docstring (line 26) but absent from the
parameter list. -/
structure InitArgs where
  domain : Option (List VarSpec)
  constraints : Option (List String)
  cost_withGradients : Option CostGrad
  model_type : String
  X : Option (List Point)
  Y : Option (List Rat)
  initial_design_numdata : Int
  initial_design_type : String
  acquisition_type : String
  normalize_Y : Bool
  exact_feval : Bool
  acquisition_optimizer_type : String
  model_update_interval : Int
  evaluator_type : String
  batch_size : Int
  num_cores : Int
  verbosity : Bool
  verbosity_model : Bool
  maximize : Bool
  de_duplication : Bool
  kwargs : List (String × String)

/-- The default argument values of the `__init__` signature
(source lines 75-78). -/
def defaultInitArgs : InitArgs :=
  { domain := none
  , constraints := none
  , cost_withGradients := none
  , model_type := "GP"
  , X := none
  , Y := none
  , initial_design_numdata := 7
  , initial_design_type := "random"
  , acquisition_type := "EI"
  , normalize_Y := true
  , exact_feval := false
  , acquisition_optimizer_type := "lbfgs"
  , model_update_interval := 1
  , evaluator_type := "sequential"
  , batch_size := 1
  , num_cores := 1
  , verbosity := false
  , verbosity_model := false
  , maximize := false
  , de_duplication := false
  , kwargs := [] }

/-- The acquisition type tags of the MCMC-integrated variants
(source lines 47, 49, 51; spec section 6). -/
def mcmcAcquisitionTypes : List String := ["EI_MCMC", "MPI_MCMC", "LCB_MCMC"]

/-- The model type tags of the MCMC model variants (source line 34; spec
sections 4.4 and 6: MCMC acquisitions require the `GP_MCMC` model). -/
def mcmcModelTypes : List String := ["GP_MCMC"]

/-- Modelled from the spec: `GPyOpt.core.task.space.Design_space`
(imported at source line 7, constructed at line 94, not under `src/`).
Spec section 4.1: "Must reject configurations with zero variables (fails
with ConfigurationError)"; an absent domain describes zero variables. -/
def designSpaceCreate (domain : Option (List VarSpec))
    (constraints : Option (List String)) : Except BOError DesignSpace :=
  match domain with
  | none => .error .configurationError
  | some vs =>
    if vs.length = 0 then .error .configurationError
    else .ok { vars := vs, constraints := constraints.getD [] }

/-- Modelled from the spec: the constant unit cost used when no cost
function is supplied (spec section 4.2: the cost model wraps an optional
cost function). -/
def defaultCostWithGradients : CostGrad :=
  fun x => (1, x.map (fun _ => 0))

/-- Modelled from the spec: `GPyOpt.core.task.cost.CostModel` (imported at
source line 8, constructed at line 102, not under `src/`): wraps the
optional user cost-with-gradients function (spec section 4.2). -/
def costModelCreate (c : Option CostGrad) : CostModel :=
  { cost_withGradients := c.getD defaultCostWithGradients }

/-- Modelled from the spec: `ArgumentsManager.model_creator` (called by
`_model_chooser`, source line 143, not under `src/`): returns the surrogate
instance tagged with its type; no fit happens at construction (spec
section 3: predictions are valid only after a fit call).  `id` is the
allocation tag for the freshly created instance. -/
def modelCreator (id : Nat) (model_type : String) (exact_feval : Bool)
    (_space : DesignSpace) : GPModel :=
  { id := id, model_type := model_type, exact_feval := exact_feval }

/-- Modelled from the spec: `AcquisitionOptimizer` (imported at source
line 16, constructed at line 119, not under `src/`): stores the space, the
policy tag and the shared surrogate model (spec section 4.5). -/
def acquisitionOptimizerCreate (space : DesignSpace) (optimizer_type : String)
    (model : GPModel) : AcquisitionOptimizer :=
  { space := space, optimizer_type := optimizer_type, model := model }

/-- Modelled from the spec: `ArgumentsManager.acquisition_creator` (called
by `_acquisition_chooser`, source line 146, not under `src/`): builds the
acquisition from its type tag, the shared model, the space, the acquisition
optimizer and the cost model's cost function.  Spec section 4.4: "Fails
with IncompatibleModelError if an MCMC acquisition is paired with a
non-MCMC model." -/
def acquisitionCreator (acquisition_type : String) (model : GPModel)
    (space : DesignSpace) (optimizer : AcquisitionOptimizer)
    (cost_withGradients : CostGrad) : Except BOError Acquisition :=
  if acquisition_type ∈ mcmcAcquisitionTypes ∧ model.model_type ∉ mcmcModelTypes
  then .error .incompatibleModelError
  else .ok { acquisition_type := acquisition_type, model := model, space := space
           , optimizer := optimizer, cost_withGradients := cost_withGradients }

/-- Modelled from the spec: `ArgumentsManager.evaluator_creator` (called by
`_evaluator_chooser`, source line 149, not under `src/`): builds the
evaluator from its tag.  Spec section 6: "`batch_size > 1` with
`evaluator_type='sequential'` is rejected at construction" with
ConfigurationError (spec section 8). -/
def evaluatorCreator (evaluator_type : String) (acquisition : Acquisition)
    (batch_size : Int) (_model_type : String) (_model : GPModel)
    (_space : DesignSpace) (_optimizer : AcquisitionOptimizer) :
    Except BOError Evaluator :=
  if batch_size > 1 ∧ evaluator_type = "sequential"
  then .error .configurationError
  else .ok { evaluator_type := evaluator_type, acquisition := acquisition
           , batch_size := batch_size }

/-- Modelled from the spec: `RosBO.__init__` (file `ros_bo.py`, of this
repository but not under `src/`), receiving exactly the arguments of source
lines 130-140: it stores the components and configuration and populates the
Observation Set with the pre-supplied X/Y rows.  It receives no objective
function (none exists in the caller), so it evaluates nothing. -/
def rosBOInit (model : GPModel) (space : DesignSpace)
    (acquisition : Acquisition) (evaluator : Evaluator)
    (X : Option (List Point)) (Y : Option (List Rat)) (cost : CostModel)
    (normalize_Y : Bool) (model_update_interval : Int)
    (de_duplication : Bool) (initial_design_numdata : Int) : RosBOState :=
  { model := model, space := space, acquisition := acquisition
  , evaluator := evaluator
  , observations :=
      match X, Y with
      | some xs, some ys => xs.zip ys
      | _, _ => []
  , cost := cost, normalize_Y := normalize_Y
  , model_update_interval := model_update_interval
  , de_duplication := de_duplication
  , initial_design_numdata := initial_design_numdata }

/-- The events recorded by the acquisition creator: the acquisition is
constructed, never evaluated, during `__init__` (scoring happens in the
loop, spec section 4.7.3). -/
def acquisitionCreatorEvents : List Event := []

/-- The events recorded by the evaluator creator: the evaluator proposes
nothing during construction (spec section 4.6: proposing happens on
`propose` calls in the loop). -/
def evaluatorCreatorEvents : List Event := []

/-- The events recorded by `RosBO.__init__`: it receives no objective
function, so it can evaluate neither the objective nor the acquisition. -/
def rosBOInitEvents : List Event := []

/-- The embedding of `RosBayesianOptimization.__init__`
(source lines 75-140), step by step in source order:
design space (line 94), cost model (line 102), model chooser (line 114),
acquisition optimizer (line 119), acquisition chooser (line 123),
evaluator chooser (line 127), base-class call (lines 130-140).
The second component is the trace of objective/acquisition evaluations
recorded while the constructor runs. -/
def rosBayesianOptimizationInit (a : InitArgs) :
    (Except BOError BOState) × List Event :=
  match designSpaceCreate a.domain a.constraints with
  | .error e => (.error e, [])
  | .ok space =>
    let cost := costModelCreate a.cost_withGradients
    let model := modelCreator 0 a.model_type a.exact_feval space
    let acquisition_optimizer :=
      acquisitionOptimizerCreate space a.acquisition_optimizer_type model
    match acquisitionCreator a.acquisition_type model space
        acquisition_optimizer cost.cost_withGradients with
    | .error e => (.error e, acquisitionCreatorEvents)
    | .ok acquisition =>
      match evaluatorCreator a.evaluator_type acquisition a.batch_size
          a.model_type model space acquisition_optimizer with
      | .error e => (.error e, acquisitionCreatorEvents ++ evaluatorCreatorEvents)
      | .ok evaluator =>
        let base := rosBOInit model space acquisition evaluator a.X a.Y cost
          a.normalize_Y a.model_update_interval a.de_duplication
          a.initial_design_numdata
        (.ok { modular_optimization := false
             , initial_iter := true
             , verbosity := a.verbosity
             , verbosity_model := a.verbosity_model
             , model_update_interval := a.model_update_interval
             , de_duplication := a.de_duplication
             , kwargs := a.kwargs
             , problem_config := a.kwargs
             , constraints := a.constraints
             , domain := a.domain
             , space := space
             , maximize := a.maximize
             , batch_size := a.batch_size
             , num_cores := a.num_cores
             , cost := cost
             , X := a.X
             , Y := a.Y
             , initial_design_type := a.initial_design_type
             , initial_design_numdata := a.initial_design_numdata
             , model_type := a.model_type
             , exact_feval := a.exact_feval
             , normalize_Y := a.normalize_Y
             , model := model
             , allocated_models := [model.id]
             , acquisition_optimizer_type := a.acquisition_optimizer_type
             , acquisition_optimizer := acquisition_optimizer
             , acquisition_type := a.acquisition_type
             , acquisition := acquisition
             , evaluator_type := a.evaluator_type
             , evaluator := evaluator
             , base := base }
        , acquisitionCreatorEvents ++ evaluatorCreatorEvents ++ rosBOInitEvents)

/-- Whether construction returns a usable optimizer object. -/
def constructionSucceeds (a : InitArgs) : Bool :=
  match (rosBayesianOptimizationInit a).1 with
  | .ok _ => true
  | .error _ => false

/-- The attribute assignment footprint of `__init__`, in source order: one
entry per `self.<attr> = ...` statement of lines 80-127 (the base-class
call of lines 130-140 writes base-class state, not these attributes).
`acquisition` appears twice because line 123 reads
`self.acquisition = self.acquisition = self._acquisition_chooser()`. -/
def initAssignedAttributes : List String :=
  [ "modular_optimization", "initial_iter", "verbosity", "verbosity_model"
  , "model_update_interval", "de_duplication", "kwargs", "problem_config"
  , "constraints", "domain", "space", "maximize", "batch_size", "num_cores"
  , "cost", "X", "Y", "initial_design_type", "initial_design_numdata"
  , "model_type", "exact_feval", "normalize_Y", "model"
  , "acquisition_optimizer_type", "acquisition_optimizer"
  , "acquisition_type", "acquisition", "acquisition"
  , "evaluator_type", "evaluator" ]

/-- The attribute assignment footprint of `_model_chooser`
(source lines 142-143): the method only returns a value. -/
def modelChooserAssignedAttributes : List String := []

/-- The attribute assignment footprint of `_acquisition_chooser`
(source lines 145-146): the method only returns a value. -/
def acquisitionChooserAssignedAttributes : List String := []

/-- The attribute assignment footprint of `_evaluator_chooser`
(source lines 148-149): the method only returns a value. -/
def evaluatorChooserAssignedAttributes : List String := []

/-! ## The warnings configuration of the module

Source lines 20-21 execute `warnings.filterwarnings("ignore")` at import
time: a filter with action `ignore` and no selectors is prepended to the
process-wide filter list, so it matches every warning subsequently
issued. -/

/-- The action of a Python warnings filter entry, restricted to the two
actions relevant here. -/
inductive FilterAction where
  | ignoreAll
  | showWarning
deriving DecidableEq, Repr

/-- The warnings filter list installed by source line 21:
`warnings.filterwarnings("ignore")` with no selectors, matching every
warning. -/
def moduleWarningFilters : List FilterAction := [FilterAction.ignoreAll]

/-- Whether a warning issued under the given filter list reaches the
caller: the first matching filter decides; with no filters the default
behaviour shows the warning. -/
def warningSurfaced (filters : List FilterAction) : Bool :=
  match filters with
  | [] => true
  | f :: _ => decide (f ≠ FilterAction.ignoreAll)

/-! ## Spec-modelled loop fragments

The optimization loop lives in the base class `RosBO` (file `ros_bo.py`,
of this repository but not under `src/`) and is modelled from spec
section 4.7. -/

/-- The outcome of one numerical fit of the surrogate model: either a new
fitted parameter state, or a convergence failure (ModelFitError, spec
sections 4.3 and 7). -/
inductive FitOutcome where
  | fitted (st : Nat)
  | fitFailed
deriving DecidableEq, Repr

/-- Modelled from the spec: the FITTING step of the driver (spec
sections 4.3, 4.7.2 and 7, implemented in the base loop, not under
`src/`): on success the new fitted state replaces the old; when the fit
does not converge the previous fitted state is retained, a warning is
issued through the `warnings` module — reaching the caller only if the
installed filters let it through — and the loop continues.  The result is
(fitted state after the step, warning reached the caller, loop continues). -/
def fittingStep (filters : List FilterAction) (prevFit : Option Nat)
    (outcome : FitOutcome) : Option Nat × Bool × Bool :=
  match outcome with
  | .fitted st => (some st, false, true)
  | .fitFailed => (prevFit, warningSurfaced filters, true)

/-- Modelled from the spec: the UPDATING step of the driver (spec
section 4.7.5, implemented in the base loop, not under `src/`): append the
new observation to the Observation Set; "if `maximize` is set, internally
negate objective values before storage/fitting".  The cost of the
evaluation is bookkept by the cost model and is outside this fragment. -/
def rosBOUpdate (maximize : Bool) (s : RosBOState) (x : Point) (y : Rat)
    (_cost : Rat) : RosBOState :=
  { s with observations :=
      s.observations ++ [(x, if maximize then -y else y)] }

/-- Repeated UPDATING steps over a list of (point, objective value, cost)
evaluation results. -/
def applyUpdates (maximize : Bool) (s : RosBOState)
    (obs : List (Point × Rat × Rat)) : RosBOState :=
  obs.foldl (fun st o => rosBOUpdate maximize st o.1 o.2.1 o.2.2) s

/-- Modelled from the spec: result reporting (spec sections 4.7.5-4.7.6,
implemented in the base loop, not under `src/`): the best stored value is
the minimum over the Observation Set, and values are "negated back for
reporting" when `maximize` is set. -/
def rosBOReportBest (maximize : Bool) (s : RosBOState) : Option Rat :=
  match s.observations with
  | [] => none
  | o :: os =>
    let m := (os.map (fun p => p.2)).foldl min o.2
    some (if maximize then -m else m)

/-- Modelled from the spec: the effective acquisition score (spec
sections 4.2 and 4.4, computed in GPyOpt's acquisition base class, not
under `src/`): the raw acquisition score is divided by the point's cost,
"so expensive regions are disfavored". -/
def Acquisition.effectiveScore (acq : Acquisition) (raw : Rat) (x : Point) : Rat :=
  raw / (acq.cost_withGradients x).1

/-- A shared-reference heap update: a refit of the surrogate instance
tagged `id` bumps that instance's fit version and no other. -/
def refitHeap (heap : Nat → Nat) (id : Nat) : Nat → Nat :=
  fun i => if i = id then heap i + 1 else heap i

/-! ## Helper definitions and lemmas -/

/-- The state `__init__` produces when every construction step succeeds,
spelled out for a domain with variable list `vs` (used to reason about the
success path of `rosBayesianOptimizationInit`). -/
def mkOkState (a : InitArgs) (vs : List VarSpec) : BOState :=
  let space : DesignSpace := { vars := vs, constraints := a.constraints.getD [] }
  let cost := costModelCreate a.cost_withGradients
  let model := modelCreator 0 a.model_type a.exact_feval space
  let acquisition_optimizer :=
    acquisitionOptimizerCreate space a.acquisition_optimizer_type model
  let acquisition : Acquisition :=
    { acquisition_type := a.acquisition_type, model := model, space := space
    , optimizer := acquisition_optimizer
    , cost_withGradients := cost.cost_withGradients }
  let evaluator : Evaluator :=
    { evaluator_type := a.evaluator_type, acquisition := acquisition
    , batch_size := a.batch_size }
  let base := rosBOInit model space acquisition evaluator a.X a.Y cost
    a.normalize_Y a.model_update_interval a.de_duplication
    a.initial_design_numdata
  { modular_optimization := false
  , initial_iter := true
  , verbosity := a.verbosity
  , verbosity_model := a.verbosity_model
  , model_update_interval := a.model_update_interval
  , de_duplication := a.de_duplication
  , kwargs := a.kwargs
  , problem_config := a.kwargs
  , constraints := a.constraints
  , domain := a.domain
  , space := space
  , maximize := a.maximize
  , batch_size := a.batch_size
  , num_cores := a.num_cores
  , cost := cost
  , X := a.X
  , Y := a.Y
  , initial_design_type := a.initial_design_type
  , initial_design_numdata := a.initial_design_numdata
  , model_type := a.model_type
  , exact_feval := a.exact_feval
  , normalize_Y := a.normalize_Y
  , model := model
  , allocated_models := [model.id]
  , acquisition_optimizer_type := a.acquisition_optimizer_type
  , acquisition_optimizer := acquisition_optimizer
  , acquisition_type := a.acquisition_type
  , acquisition := acquisition
  , evaluator_type := a.evaluator_type
  , evaluator := evaluator
  , base := base }

lemma init_reaches_ok (a : InitArgs) (vs : List VarSpec)
    (hdom : a.domain = some vs) (hne : vs ≠ [])
    (hacq : ¬(a.acquisition_type ∈ mcmcAcquisitionTypes ∧
              a.model_type ∉ mcmcModelTypes))
    (hev : ¬(a.batch_size > 1 ∧ a.evaluator_type = "sequential")) :
    rosBayesianOptimizationInit a = (.ok (mkOkState a vs), []) := by
  have hlen : ¬ vs.length = 0 := by simpa using hne
  have hacq' : ¬(a.acquisition_type ∈ mcmcAcquisitionTypes ∧
      (modelCreator 0 a.model_type a.exact_feval
        { vars := vs, constraints := a.constraints.getD [] }).model_type ∉
        mcmcModelTypes) := by
    simpa [modelCreator] using hacq
  simp only [rosBayesianOptimizationInit, designSpaceCreate, hdom,
    if_neg hlen, acquisitionCreator, if_neg hacq', evaluatorCreator,
    if_neg hev, mkOkState, acquisitionCreatorEvents, evaluatorCreatorEvents,
    rosBOInitEvents, List.append_nil, List.nil_append]

lemma applyUpdates_observations (m : Bool) (obs : List (Point × Rat × Rat)) :
    ∀ s : RosBOState, (applyUpdates m s obs).observations =
      s.observations ++ obs.map (fun o => (o.1, if m then -o.2.1 else o.2.1)) := by
  induction obs with
  | nil => intro s; simp [applyUpdates]
  | cons o os ih =>
    intro s
    have h := ih (rosBOUpdate m s o.1 o.2.1 o.2.2)
    simp only [applyUpdates, List.foldl_cons] at h ⊢
    rw [h]
    simp [rosBOUpdate]

lemma foldl_min_neg {α : Type} (f : α → Rat) (l : List α) :
    ∀ a : Rat, (l.map (fun x => -(f x))).foldl min (-a) = -((l.map f).foldl max a) := by
  induction l with
  | nil => intro a; simp
  | cons y ys ih =>
    intro a
    simp only [List.map_cons, List.foldl_cons, min_neg_neg]
    exact ih (max a (f y))

/-! ## Concrete inputs used by the witnesses -/

/-- A one-variable continuous domain. -/
def sampleVar : VarSpec := { name := "x", vtype := "continuous", dom := [-5, 5] }

/-- The variable list of the one-variable domain. -/
def sampleVars : List VarSpec := [sampleVar]

/-- Arguments with the one-variable domain and all defaults. -/
def sampleArgs : InitArgs := { defaultInitArgs with domain := some sampleVars }

/-- The base-loop state of the object constructed from `sampleArgs`
(its Observation Set is empty: no X/Y were supplied). -/
def sampleBase : RosBOState := (mkOkState sampleArgs sampleVars).base

/-- Arguments pairing the MCMC acquisition `EI_MCMC` with the default
non-MCMC model `GP`. -/
def c1Args : InitArgs :=
  { defaultInitArgs with domain := some sampleVars, acquisition_type := "EI_MCMC" }

/-- Arguments with `batch_size = 2` and the default sequential evaluator. -/
def c2Args : InitArgs :=
  { defaultInitArgs with domain := some sampleVars, batch_size := 2 }

/-- Arguments in which none of `batch_size`, `num_cores`,
`model_update_interval` is a positive integer. -/
def c4Args : InitArgs :=
  { defaultInitArgs with
      domain := some sampleVars,
      batch_size := 0,
      num_cores := 0,
      model_update_interval := 0 }

/-- A concrete cost-with-gradients function: cost of a point is its first
coordinate plus one. -/
def sampleCostFn : CostGrad := fun x => (x.headD 0 + 1, x)

/-- Arguments supplying `sampleCostFn` as the cost function. -/
def c7Args : InitArgs :=
  { defaultInitArgs with
      domain := some sampleVars,
      cost_withGradients := some sampleCostFn }

/-- The object constructed from `c7Args`. -/
def c7State : BOState := mkOkState c7Args sampleVars

/-- The constantly-zero fit-version heap. -/
def constHeapZero : Nat → Nat := fun _ => 0

/-- Arguments with pre-supplied X/Y observation arrays. -/
def c10Args : InitArgs :=
  { defaultInitArgs with
      domain := some sampleVars,
      X := some [[1], [2]],
      Y := some [3, 4] }

/-! ## Claims -/

/-- Claim C1: for every construction whose domain is accepted, pairing an
MCMC acquisition variant (`EI_MCMC`, `MPI_MCMC`, `LCB_MCMC`) with a
non-MCMC model variant makes construction fail with IncompatibleModelError,
deterministically, with an empty construction trace — so no objective or
acquisition evaluation occurs before (or after) the failure. -/
theorem mcmc_acquisition_requires_mcmc_model (a : InitArgs) (vs : List VarSpec)
    (hdom : a.domain = some vs) (hne : vs ≠ [])
    (hacq : a.acquisition_type ∈ mcmcAcquisitionTypes)
    (hmod : a.model_type ∉ mcmcModelTypes) :
    rosBayesianOptimizationInit a = (.error .incompatibleModelError, []) := by
  have hlen : ¬ vs.length = 0 := by simpa using hne
  have hcond : a.acquisition_type ∈ mcmcAcquisitionTypes ∧
      (modelCreator 0 a.model_type a.exact_feval
        { vars := vs, constraints := a.constraints.getD [] }).model_type ∉
        mcmcModelTypes := ⟨hacq, by simpa [modelCreator] using hmod⟩
  simp only [rosBayesianOptimizationInit, designSpaceCreate, hdom,
    if_neg hlen, acquisitionCreator, if_pos hcond, acquisitionCreatorEvents]

/-- Witness for C1 at a concrete input: `EI_MCMC` with the default `GP`
model over a one-variable domain. -/
theorem mcmc_acquisition_requires_mcmc_model_witness :
    c1Args.domain = some sampleVars ∧
    rosBayesianOptimizationInit c1Args = (.error .incompatibleModelError, []) :=
  ⟨rfl, mcmc_acquisition_requires_mcmc_model c1Args sampleVars rfl
    (by decide) (by decide) (by decide)⟩

lemma init_no_ok_of_batch_sequential (a : InitArgs)
    (hbatch : a.batch_size > 1) (hev : a.evaluator_type = "sequential") :
    ∀ st : BOState, (rosBayesianOptimizationInit a).1 ≠ .ok st := by
  intro st h
  simp only [rosBayesianOptimizationInit] at h
  split at h
  · simp at h
  · split at h
    · simp at h
    · split at h
      · simp at h
      · rename_i heq
        rw [evaluatorCreator, if_pos
          (show a.batch_size > 1 ∧ a.evaluator_type = "sequential" from
            ⟨hbatch, hev⟩)] at heq
        exact absurd heq (by simp)

/-- Claim C2: for every construction with `batch_size > 1` and
`evaluator_type = 'sequential'`, no usable optimizer object is produced;
and whenever the earlier construction steps are accepted, the failure is a
ConfigurationError raised by the evaluator chooser. -/
theorem sequential_batch_rejected (a : InitArgs)
    (hbatch : a.batch_size > 1) (hev : a.evaluator_type = "sequential") :
    constructionSucceeds a = false ∧
    (∀ vs : List VarSpec, a.domain = some vs → vs ≠ [] →
      ¬(a.acquisition_type ∈ mcmcAcquisitionTypes ∧
        a.model_type ∉ mcmcModelTypes) →
      (rosBayesianOptimizationInit a).1 = .error .configurationError) := by
  constructor
  · unfold constructionSucceeds
    cases hres : (rosBayesianOptimizationInit a).1 with
    | ok st => exact absurd hres (init_no_ok_of_batch_sequential a hbatch hev st)
    | error e => rfl
  · intro vs hdom hne hacq
    have hlen : ¬ vs.length = 0 := by simpa using hne
    have hacq' : ¬(a.acquisition_type ∈ mcmcAcquisitionTypes ∧
        (modelCreator 0 a.model_type a.exact_feval
          { vars := vs, constraints := a.constraints.getD [] }).model_type ∉
          mcmcModelTypes) := by
      simpa [modelCreator] using hacq
    simp only [rosBayesianOptimizationInit, designSpaceCreate, hdom,
      if_neg hlen, acquisitionCreator, if_neg hacq', evaluatorCreator]
    rw [if_pos (show a.batch_size > 1 ∧ a.evaluator_type = "sequential" from
      ⟨hbatch, hev⟩)]

/-- Witness for C2 at a concrete input: `batch_size = 2` with the default
sequential evaluator over a one-variable domain. -/
theorem sequential_batch_rejected_witness :
    c2Args.batch_size > 1 ∧ c2Args.evaluator_type = "sequential" ∧
    constructionSucceeds c2Args = false ∧
    (rosBayesianOptimizationInit c2Args).1 = .error .configurationError := by
  have h := sequential_batch_rejected c2Args (by decide) (by decide)
  exact ⟨by decide, by decide, h.1,
    h.2 sampleVars rfl (by decide) (by decide)⟩

/-- Claim C3 counterexample: at a concrete fit failure (previous fitted
state `some 5`) under the module's warnings configuration (line 21
installs an ignore-everything filter), the previous state is retained and
the loop continues, but the warning does NOT reach the caller — refuting
the claim that a warning is surfaced. -/
theorem fit_warning_suppressed_counterexample :
    (fittingStep moduleWarningFilters (some 5) FitOutcome.fitFailed).1 = some 5 ∧
    (fittingStep moduleWarningFilters (some 5) FitOutcome.fitFailed).2.1 = false ∧
    (fittingStep moduleWarningFilters (some 5) FitOutcome.fitFailed).2.2 = true := by
  decide

/-- Claim C3 (amended): whenever the surrogate fit fails to converge, the
previously fitted model state is retained unchanged and the loop
continues, but the warning is suppressed by the module-level
`warnings.filterwarnings` ignore-all filter (source line 21) instead of
being surfaced to the caller. -/
theorem fit_failure_retains_state_warning_suppressed (prev : Option Nat) :
    fittingStep moduleWarningFilters prev FitOutcome.fitFailed =
      (prev, false, true) := by
  simp [fittingStep, warningSurfaced, moduleWarningFilters]

/-- Claim C4 counterexample: a construction in which none of `batch_size`,
`num_cores`, `model_update_interval` is a positive integer, yet the
constructor succeeds — refuting the claim that the constructor fails on
such values. -/
theorem nonpositive_config_accepted_counterexample :
    (c4Args.batch_size ≤ 0 ∧ c4Args.num_cores ≤ 0 ∧
     c4Args.model_update_interval ≤ 0) ∧
    constructionSucceeds c4Args = true := by
  exact ⟨by decide, rfl⟩

/-- Claim C4 (amended): the constructor performs no positivity validation
of `batch_size`, `num_cores` or `model_update_interval`: with an accepted
domain and compatible acquisition/model and evaluator choices, construction
succeeds for arbitrary integer values of all three (in particular for
non-positive ones; `num_cores` is stored and never forwarded to any
component). -/
theorem config_not_validated_at_construction (a : InitArgs) (vs : List VarSpec)
    (hdom : a.domain = some vs) (hne : vs ≠ [])
    (hacq : ¬(a.acquisition_type ∈ mcmcAcquisitionTypes ∧
              a.model_type ∉ mcmcModelTypes))
    (hev : ¬(a.batch_size > 1 ∧ a.evaluator_type = "sequential")) :
    constructionSucceeds a = true := by
  unfold constructionSucceeds
  rw [init_reaches_ok a vs hdom hne hacq hev]

/-- Witness for the amended C4: construction succeeds with
`batch_size = 0`, `num_cores = 0`, `model_update_interval = 0`. -/
theorem config_not_validated_at_construction_witness :
    c4Args.num_cores = 0 ∧ constructionSucceeds c4Args = true :=
  ⟨rfl, config_not_validated_at_construction c4Args sampleVars rfl
    (by decide) (by decide) (by decide)⟩

/-- Claim C5: with `maximize` set, every objective value is negated before
storage in the Observation Set (and hence before fitting, which reads the
stored values), and the reported best value is negated back: it equals the
maximum of the original, un-negated objective values. -/
theorem maximize_negates_and_reports_original (s : RosBOState)
    (h : s.observations = []) (o : Point × Rat × Rat)
    (os : List (Point × Rat × Rat)) :
    ((applyUpdates true s (o :: os)).observations.map (fun p => p.2) =
      (o :: os).map (fun p => -p.2.1)) ∧
    rosBOReportBest true (applyUpdates true s (o :: os)) =
      some ((os.map (fun p => p.2.1)).foldl max o.2.1) := by
  have hobs := applyUpdates_observations true (o :: os) s
  rw [h, List.nil_append] at hobs
  constructor
  · rw [hobs]; simp
  · have hmin := foldl_min_neg (fun p : Point × Rat × Rat => p.2.1) os o.2.1
    simp only [rosBOReportBest, hobs, List.map_cons, if_pos, List.map_map]
    simp only [Function.comp_def, ite_true]
    rw [hmin, neg_neg]

/-- Witness for C5 at concrete inputs: three evaluations with original
values 2, 5, 3 under maximize; the stored values are their negations and
the reported best is 5. -/
theorem maximize_negates_and_reports_original_witness :
    sampleBase.observations = [] ∧
    rosBOReportBest true
      (applyUpdates true sampleBase [([1], 2, 1), ([2], 5, 1), ([3], 3, 1)]) =
      some 5 := by
  have h := maximize_negates_and_reports_original sampleBase rfl
    ([1], 2, 1) [([2], 5, 1), ([3], 3, 1)]
  exact ⟨rfl, h.2.trans (by decide)⟩

/-- Claim C6: for every construction whose domain describes zero variables
(an absent domain or an empty variable list), construction fails with
ConfigurationError while building the design space. -/
theorem zero_variable_domain_rejected (a : InitArgs)
    (h : a.domain = none ∨ a.domain = some []) :
    rosBayesianOptimizationInit a = (.error .configurationError, []) := by
  rcases h with h | h <;>
    simp [rosBayesianOptimizationInit, designSpaceCreate, h]

/-- Witness for C6 at a concrete input: the default arguments (absent
domain). -/
theorem zero_variable_domain_rejected_witness :
    defaultInitArgs.domain = none ∧
    rosBayesianOptimizationInit defaultInitArgs =
      (.error .configurationError, []) :=
  ⟨rfl, zero_variable_domain_rejected defaultInitArgs (Or.inl rfl)⟩

/-- Claim C7: on every successfully constructed object, the acquisition
function holds exactly the cost model's cost-with-gradients function
(source line 146 passes `self.cost.cost_withGradients`), and the effective
acquisition score divides the raw score by the point's cost, so of two
points with positive costs the higher-cost one receives the strictly lower
effective score for the same positive raw score. -/
theorem cost_divides_acquisition (a : InitArgs) (vs : List VarSpec)
    (hdom : a.domain = some vs) (hne : vs ≠ [])
    (hacq : ¬(a.acquisition_type ∈ mcmcAcquisitionTypes ∧
              a.model_type ∉ mcmcModelTypes))
    (hev : ¬(a.batch_size > 1 ∧ a.evaluator_type = "sequential")) :
    ∀ st : BOState, (rosBayesianOptimizationInit a).1 = .ok st →
      st.acquisition.cost_withGradients = st.cost.cost_withGradients ∧
      ∀ (raw : Rat) (x1 x2 : Point), 0 < raw →
        0 < (st.cost.cost_withGradients x1).1 →
        (st.cost.cost_withGradients x1).1 < (st.cost.cost_withGradients x2).1 →
        st.acquisition.effectiveScore raw x2 <
          st.acquisition.effectiveScore raw x1 := by
  intro st hst
  rw [init_reaches_ok a vs hdom hne hacq hev] at hst
  have hst' : Except.ok (mkOkState a vs) = Except.ok st := hst
  injection hst' with h
  subst h
  refine ⟨rfl, ?_⟩
  intro raw x1 x2 hraw h1 h12
  simp only [Acquisition.effectiveScore]
  exact div_lt_div_of_pos_left hraw h1 h12

/-- Witness for C7 at concrete inputs: with cost function
`sampleCostFn`, the point `[3]` (cost 4) scores strictly below the point
`[0]` (cost 1) for the raw score 2. -/
theorem cost_divides_acquisition_witness :
    c7State.acquisition.cost_withGradients = c7State.cost.cost_withGradients ∧
    c7State.acquisition.effectiveScore 2 [3] <
      c7State.acquisition.effectiveScore 2 [0] := by
  have h := cost_divides_acquisition c7Args sampleVars rfl (by decide)
    (by decide) (by decide) c7State rfl
  refine ⟨h.1, h.2 2 [0] [3] (by norm_num) ?_ ?_⟩ <;>
    norm_num [c7State, mkOkState, costModelCreate, c7Args, defaultInitArgs,
      sampleCostFn]

/-- Claim C8: the design space and the component choices are fixed at
construction: `__init__`'s assignment footprint writes each of `space`,
`model_type`, `acquisition_type`, `evaluator_type` and
`acquisition_optimizer_type` exactly once, and the three chooser methods
— the only other operations of the class — assign nothing, so nothing
reassigns the choices or replaces the constructed component instances
after construction. -/
theorem components_fixed_at_construction :
    initAssignedAttributes.count ("space") = 1 ∧
    initAssignedAttributes.count ("model_type") = 1 ∧
    initAssignedAttributes.count ("acquisition_type") = 1 ∧
    initAssignedAttributes.count ("evaluator_type") = 1 ∧
    initAssignedAttributes.count ("acquisition_optimizer_type") = 1 ∧
    initAssignedAttributes.count ("model") = 1 ∧
    initAssignedAttributes.count ("acquisition_optimizer") = 1 ∧
    initAssignedAttributes.count ("evaluator") = 1 ∧
    modelChooserAssignedAttributes = [] ∧
    acquisitionChooserAssignedAttributes = [] ∧
    evaluatorChooserAssignedAttributes = [] := by
  decide

/-- Claim C9: on every successfully constructed object, exactly one
surrogate model instance was allocated, and the acquisition optimizer,
the acquisition function and the base loop all hold that same instance, so
a refit of the shared instance (a bump of its heap slot) is observed
identically through each component's handle. -/
theorem single_shared_model_instance (a : InitArgs) (vs : List VarSpec)
    (hdom : a.domain = some vs) (hne : vs ≠ [])
    (hacq : ¬(a.acquisition_type ∈ mcmcAcquisitionTypes ∧
              a.model_type ∉ mcmcModelTypes))
    (hev : ¬(a.batch_size > 1 ∧ a.evaluator_type = "sequential")) :
    ∀ st : BOState, (rosBayesianOptimizationInit a).1 = .ok st →
      st.allocated_models = [st.model.id] ∧
      st.acquisition_optimizer.model = st.model ∧
      st.acquisition.model = st.model ∧
      st.base.model = st.model ∧
      ∀ heap : Nat → Nat,
        refitHeap heap st.model.id st.acquisition_optimizer.model.id =
          heap st.model.id + 1 ∧
        refitHeap heap st.model.id st.acquisition.model.id =
          heap st.model.id + 1 ∧
        refitHeap heap st.model.id st.base.model.id =
          heap st.model.id + 1 := by
  intro st hst
  rw [init_reaches_ok a vs hdom hne hacq hev] at hst
  have hst' : Except.ok (mkOkState a vs) = Except.ok st := hst
  injection hst' with h
  subst h
  refine ⟨rfl, rfl, rfl, rfl, fun heap => ⟨?_, ?_, ?_⟩⟩ <;>
    simp [refitHeap, mkOkState, modelCreator, acquisitionOptimizerCreate,
      rosBOInit, costModelCreate]

/-- Witness for C9 at a concrete input: the object constructed from
`sampleArgs` shares one model instance, and a refit through the shared
slot is seen through the base loop's handle. -/
theorem single_shared_model_instance_witness :
    (mkOkState sampleArgs sampleVars).acquisition.model =
      (mkOkState sampleArgs sampleVars).model ∧
    refitHeap constHeapZero (mkOkState sampleArgs sampleVars).model.id
        (mkOkState sampleArgs sampleVars).base.model.id =
      constHeapZero (mkOkState sampleArgs sampleVars).model.id + 1 := by
  have h := single_shared_model_instance sampleArgs sampleVars rfl
    (by decide) (by decide) (by decide) (mkOkState sampleArgs sampleVars) rfl
  exact ⟨h.2.2.1, (h.2.2.2.2 constHeapZero).2.2⟩

/-- Claim C10: construction never evaluates the objective: the `__init__`
signature has no objective-function parameter (the docstring's `f` is
absent from the parameter list, lines 75-78) and forwards no objective to
the base loop, so for every configuration the construction trace holds no
objective (nor acquisition) evaluation, and on success the Observation Set
contains exactly the pre-supplied X/Y rows, if any. -/
theorem construction_evaluates_nothing (a : InitArgs) :
    (rosBayesianOptimizationInit a).2 = [] ∧
    ∀ st : BOState, (rosBayesianOptimizationInit a).1 = .ok st →
      st.base.observations =
        (match a.X, a.Y with
         | some xs, some ys => xs.zip ys
         | _, _ => []) := by
  constructor
  · simp only [rosBayesianOptimizationInit]
    split
    · rfl
    · split
      · rfl
      · split
        · rfl
        · rfl
  · intro st hst
    simp only [rosBayesianOptimizationInit] at hst
    split at hst
    · simp at hst
    · split at hst
      · simp at hst
      · split at hst
        · simp at hst
        · injection hst with h
          subst h
          rfl

/-- Witness for C10 at a concrete input: pre-supplied X/Y of two rows; the
Observation Set after construction is exactly those two rows and the
construction trace is empty. -/
theorem construction_evaluates_nothing_witness :
    (rosBayesianOptimizationInit c10Args).2 = [] ∧
    (mkOkState c10Args sampleVars).base.observations =
      [([1], 3), ([2], 4)] := by
  have h := construction_evaluates_nothing c10Args
  exact ⟨h.1, (h.2 (mkOkState c10Args sampleVars) rfl).trans rfl⟩

end SawyerBopt
